import Mathlib

/-!
# Verification of the uniswap client's price/trade core

Shallow embedding of the repository's fee-tier validation (`uniswap/dto/enums.py`),
the V1 AMM price calculations (`uniswap/protocol/v1.py`) and the dispatch /
trade-construction layer (`uniswap/protocol/base.py`).

Embedding conventions:
* Python integers are `ℤ`.
* Python `/` applied to numbers is *true division* (it produces a float even on
  `int` operands).  It is modelled as exact division in `ℚ`, guarded by the
  `ZeroDivisionError` check that Python performs (`pyDiv`).  Float literals are
  modelled by the rational they denote (`1.2` as `6/5`, a slippage of `0.01` as
  `1/100`); the concrete inputs appearing in the theorems below were chosen so
  that IEEE-754 double rounding cannot change any of the stated integer
  outcomes.
* Python `int()` applied to a number truncates toward zero (`pyInt`).
* Raised exceptions are modelled with `Except PyErr`; calls into the external
  transport (contract reads, balance reads, transaction submission) are fields
  of an explicit environment `Env`, and functions are modelled up to the point
  where they hand a fully validated call to the transport.
-/

namespace UniswapClient

/-- Exceptions of `uniswap/dto/exceptions.py` that the embedded code can raise,
plus Python's built-in `TypeError`/`ZeroDivisionError`.  Note that the
repository defines no `InsufficientLiquidity` exception. -/
inductive PyErr where
  | zeroDivisionError : PyErr
  | typeError : PyErr
  | invalidFeeTier : PyErr
  | explicitFeeTierRequired : PyErr
  | invalidTokenArgument : PyErr
  | insufficientBalance (had needed : ℤ) : PyErr
  | unsupportedUniSwapVersion (version : ℤ) : PyErr
deriving DecidableEq, Repr

instance {ε α : Type} [DecidableEq ε] [DecidableEq α] : DecidableEq (Except ε α) := fun x y =>
  match x, y with
  | .error a, .error b =>
      if h : a = b then .isTrue (by rw [h]) else
        .isFalse (fun hc => h (by injection hc))
  | .error _, .ok _ => .isFalse (fun hc => by injection hc)
  | .ok _, .error _ => .isFalse (fun hc => by injection hc)
  | .ok a, .ok b =>
      if h : a = b then .isTrue (by rw [h]) else
        .isFalse (fun hc => h (by injection hc))

/-- Python `int()` on a number: truncation toward zero. -/
def pyInt (q : ℚ) : ℤ := if q < 0 then ⌈q⌉ else ⌊q⌋

/-- Python true division `a / b`, raising `ZeroDivisionError` on a zero divisor. -/
def pyDiv (a b : ℚ) : Except PyErr ℚ :=
  if b = 0 then .error .zeroDivisionError else .ok (a / b)

/-- The members of the `FeeTier` enum of `uniswap/dto/enums.py`
(`TIER_100`, `TIER_500`, `TIER_3000`, `TIER_10000`). -/
def FeeTier.members : List ℤ := [100, 500, 3000, 10000]

/-- `FeeTier.create` from `uniswap/dto/enums.py` (lines 28-52).
`value = value or FeeTier.TIER_3000` replaces both `None` and the falsy `0`
by `3000`; `FeeTier(value)` raises `ValueError` (re-raised as `InvalidFeeTier`)
when `value` is not an enum member. -/
def FeeTier.create (value : Option ℤ) (version : ℤ) : Except PyErr ℤ :=
  if version = 3 ∧ value = none then .error .explicitFeeTierRequired
  else
    let v : ℤ := match value with
      | none => 3000
      | some x => if x = 0 then 3000 else x
    if version < 3 ∧ v ≠ 3000 then .error .invalidFeeTier
    else if v ∈ FeeTier.members then .ok v
    else .error .invalidFeeTier

/-- Token addresses are the hex strings Python compares with `==`. -/
abbrev Token := String

/-- Address of the native asset.  `uniswap/dto/constants.py` is not part of the
sources, but `uniswap/tokens.py` lists ETH at the zero address and
`get_token` compares addresses against `ETH_ADDRESS` to recognise it. -/
def ETH_ADDRESS : Token := "0x0000000000000000000000000000000000000000"

/-- Results of the external collaborators (contract reads, balance reads,
per-pool price calls) that the client performs at call time.  The spec (§6)
treats these as opaque services; each field is one read-through accessor. -/
structure Env where
  /-- `default_slippage` attribute of the client (`base.py` line 107). -/
  default_slippage : ℚ
  /-- `get_eth_balance` (`base.py` lines 574-576). -/
  eth_balance : ℤ
  /-- `erc20.balanceOf(address)` behind `get_token_balance` (`base.py` 578-585). -/
  token_balances : Token → ℤ
  /-- `UniswapV1Utils.get_ex_eth_balance` (`v1.py` lines 43-46): ETH reserve of a token's exchange. -/
  ex_eth_balance : Token → ℤ
  /-- `UniswapV1Utils.get_ex_token_balance` (`v1.py` lines 48-52): token reserve of a token's exchange. -/
  ex_token_balance : Token → ℤ
  /-- `exchange.getEthToTokenInputPrice(qty)` contract call (`v1.py` 146-157). -/
  eth_token_input_price : Token → ℤ → ℤ
  /-- `exchange.getTokenToEthInputPrice(qty)` contract call (`v1.py` 159-170). -/
  token_eth_input_price : Token → ℤ → ℤ
  /-- `exchange.getEthToTokenOutputPrice(qty)` contract call (`v1.py` 172-183). -/
  eth_token_output_price : Token → ℤ → ℤ
  /-- `exchange.getTokenToEthOutputPrice(qty)` contract call (`v1.py` 185-196). -/
  token_eth_output_price : Token → ℤ → ℤ

/-- `get_token_balance` (`base.py` lines 578-585): the native pseudo-address
routes to the ETH balance. -/
def get_token_balance (env : Env) (token : Token) : ℤ :=
  if token = ETH_ADDRESS then env.eth_balance else env.token_balances token

/-- Exact-input leg of the local V1 AMM math: the `numerator / denominator`
computation appearing at `v1.py` lines 419-421 and again at lines 429-431
(`qty * outputReserve * 997 / (inputReserve * 1000 + qty * 997)`).  Python `/`
is true division, modelled in `ℚ`. -/
def exactInputLeg (amountIn reserveIn reserveOut : ℚ) : Except PyErr ℚ :=
  pyDiv (amountIn * reserveOut * 997) (reserveIn * 1000 + amountIn * 997)

/-- Exact-output leg of the local V1 AMM math: the
`numerator / denominator + 1` computation appearing at `v1.py` lines 326-328
and again at lines 390-392.  Python `/` is true division, so the result is a
float (here an exact rational), not an integer. -/
def exactOutputLeg (amountOut reserveIn reserveOut : ℚ) : Except PyErr ℚ :=
  match pyDiv (amountOut * reserveIn * 1000) ((reserveOut - amountOut) * 997) with
  | .error e => .error e
  | .ok q => .ok (q + 1)

/-- The `inputAmount` computed inside `UniswapV1._token_to_eth_swap_output`
(`v1.py` lines 322-328) from the requested output `qty` and the exchange's
token/ETH reserves. -/
def token_to_eth_swap_output_inputAmount (outputAmount inputReserve outputReserve : ℤ) :
    Except PyErr ℚ :=
  exactOutputLeg (outputAmount : ℚ) (inputReserve : ℚ) (outputReserve : ℚ)

/-- `UniswapV1._token_to_eth_swap_output` (`v1.py` lines 311-339) up to the
transaction construction: reads the reserves of the input token's exchange,
computes `inputAmount`, and returns the `max_tokens` slippage bound that is
passed to the contract call (the call itself goes to the external transport). -/
def token_to_eth_swap_output (env : Env) (input_token : Token) (qty : ℤ) (slippage : ℚ) :
    Except PyErr ℤ :=
  match token_to_eth_swap_output_inputAmount qty
      (env.ex_token_balance input_token) (env.ex_eth_balance input_token) with
  | .error e => .error e
  | .ok inputAmount => .ok (pyInt ((1 + slippage) * inputAmount))

/-- `UniswapV1._calculate_max_input_token` (`v1.py` lines 374-404): two-hop
exact-output cost.  Leg B buys `qty` of the output token with ETH
(`numerator_b / denominator_b + 1`); leg A buys that bridge amount of ETH with
the input token (`numerator_a / denominator_a - 1`, note the minus one); the
returned pair is `(int(input_amount_a), int(1.2 * input_amount_b))`. -/
def calculate_max_input_token (env : Env) (input_token : Token) (qty : ℤ) (output_token : Token) :
    Except PyErr (ℤ × ℤ) :=
  match exactOutputLeg (qty : ℚ)
      (env.ex_eth_balance output_token : ℚ) (env.ex_token_balance output_token : ℚ) with
  | .error e => .error e
  | .ok input_amount_b =>
    match pyDiv (input_amount_b * (env.ex_token_balance input_token : ℚ) * 1000)
        (((env.ex_eth_balance input_token : ℚ) - input_amount_b) * 997) with
    | .error e => .error e
    | .ok q_a => .ok (pyInt (q_a - 1), pyInt ((6/5 : ℚ) * input_amount_b))

/-- `UniswapV1._calculate_max_output_token` (`v1.py` lines 406-433): two-hop
exact-input quote.  Leg A sells `qty` of the (def-parameter) input token for
ETH, leg B sells that ETH amount for the output token; the returned pair is
`(int(outputAmountB), int(1.2 * outputAmountA))`.  The intermediate
`outputAmountA` is used unfloored.  The parameter order `(output_token, qty,
input_token)` is the source's. -/
def calculate_max_output_token (env : Env) (output_token : Token) (qty : ℤ) (input_token : Token) :
    Except PyErr (ℤ × ℤ) :=
  match exactInputLeg (qty : ℚ)
      (env.ex_token_balance input_token : ℚ) (env.ex_eth_balance input_token : ℚ) with
  | .error e => .error e
  | .ok outputAmountA =>
    match exactInputLeg outputAmountA
        (env.ex_token_balance output_token : ℚ) (env.ex_eth_balance output_token : ℚ) with
    | .error e => .error e
    | .ok outputAmountB => .ok (pyInt outputAmountB, pyInt ((6/5 : ℚ) * outputAmountA))

/-- `BaseUniswap.get_price_input` (`base.py` lines 140-156) composed with the
`UniswapV1` overrides (`v1.py` 146-170: contract calls; 198-206: token-token
raises `UnsupportedUniSwapVersion(self._version)`).  `version` is the client's
`_version` attribute. -/
def get_price_input (env : Env) (token0 token1 : Token) (qty : ℤ) (fee : Option ℤ)
    (version : ℤ) : Except PyErr ℤ :=
  match FeeTier.create fee version with
  | .error e => .error e
  | .ok _fee =>
    if token0 = ETH_ADDRESS then .ok (env.eth_token_input_price token1 qty)
    else if token1 = ETH_ADDRESS then .ok (env.token_eth_input_price token0 qty)
    else .error (.unsupportedUniSwapVersion version)

/-- `BaseUniswap.get_price_output` (`base.py` lines 158-174) composed with the
`UniswapV1` overrides (`v1.py` 172-196: contract calls; 208-216: token-token
raises `UnsupportedUniSwapVersion(self._version)`).  `is_same_address` is
address equality. -/
def get_price_output (env : Env) (token0 token1 : Token) (qty : ℤ) (fee : Option ℤ)
    (version : ℤ) : Except PyErr ℤ :=
  match FeeTier.create fee version with
  | .error e => .error e
  | .ok _fee =>
    if token0 = ETH_ADDRESS then .ok (env.eth_token_output_price token1 qty)
    else if token1 = ETH_ADDRESS then .ok (env.token_eth_output_price token0 qty)
    else .error (.unsupportedUniSwapVersion version)

/-- `BaseUniswap._wrap_eth_to_token_swap_output` (`base.py` lines 441-468):
`amount_in_max = int((1 + slippage) * cost)` (truncation) is checked against
the ETH balance; on success `_eth_to_token_swap_output` (`v1.py` 291-309)
re-reads the price as the transaction value and submits, so the returned value
is that price. -/
def wrap_eth_to_token_swap_output (env : Env) (output_token : Token) (qty : ℤ)
    (slippage : ℚ) : Except PyErr ℤ :=
  if output_token = ETH_ADDRESS then .error .invalidTokenArgument
  else
    let eth_balance := env.eth_balance
    let cost := env.eth_token_output_price output_token qty
    let amount_in_max := pyInt ((1 + slippage) * (cost : ℚ))
    if amount_in_max > eth_balance then .error (.insufficientBalance eth_balance amount_in_max)
    else .ok (env.eth_token_output_price output_token qty)

/-- `BaseUniswap._wrap_token_to_eth_swap_output` (`base.py` lines 482-509):
`amount_in_max = int((1 + slippage) * cost)` (truncation) is checked against
the input-token balance; on success control passes to
`UniswapV1._token_to_eth_swap_output`. -/
def wrap_token_to_eth_swap_output (env : Env) (input_token : Token) (qty : ℤ)
    (slippage : ℚ) : Except PyErr ℤ :=
  if input_token = ETH_ADDRESS then .error .invalidTokenArgument
  else
    let input_balance := get_token_balance env input_token
    let cost := env.token_eth_output_price input_token qty
    let amount_in_max := pyInt ((1 + slippage) * (cost : ℚ))
    if amount_in_max > input_balance then .error (.insufficientBalance input_balance amount_in_max)
    else token_to_eth_swap_output env input_token qty slippage

/-- `BaseUniswap._wrap_token_to_token_swap_output` (`base.py` lines 523-555)
on the V1 client: after the ETH check, the cost computation
`_get_token_token_output_price` (`v1.py` 208-216) raises
`UnsupportedUniSwapVersion(self._version)`. -/
def wrap_token_to_token_swap_output (env : Env) (input_token output_token : Token) (_qty : ℤ)
    (_slippage : ℚ) (version : ℤ) : Except PyErr ℤ :=
  if input_token = ETH_ADDRESS ∨ output_token = ETH_ADDRESS then .error .invalidTokenArgument
  else
    let _input_balance := get_token_balance env input_token
    .error (.unsupportedUniSwapVersion version)

/-- `BaseUniswap.make_trade` (`base.py` lines 242-282) composed with the wrap
functions (318-425) and the `UniswapV1` leaves (220-289).  The
`isinstance(qty, int)` guard cannot fire (qty is `ℤ`); the `check_approval`
decorator (from `uniswap/decorators.py`, not under the sources) only issues
external approval transactions and is modelled as a no-op.  The exact-input
leaves build and submit the swap via the external transport, so success is
`()`.  Note the source's positional call
`_calculate_max_output_token(input_token, qty, output_token)` against the
signature `(output_token, qty, input_token)`. -/
def make_trade (env : Env) (input_token output_token : Token) (qty : ℤ) (fee : Option ℤ)
    (slippage : Option ℚ) (version : ℤ) : Except PyErr Unit :=
  match FeeTier.create fee version with
  | .error e => .error e
  | .ok _fee =>
    let _slip := slippage.getD env.default_slippage
    if input_token = output_token then .error .invalidTokenArgument
    else if input_token = ETH_ADDRESS then
      if output_token = ETH_ADDRESS then .error .invalidTokenArgument
      else if qty > env.eth_balance then .error (.insufficientBalance env.eth_balance qty)
      else .ok ()
    else if output_token = ETH_ADDRESS then
      if input_token = ETH_ADDRESS then .error .invalidTokenArgument
      else
        let input_balance := get_token_balance env input_token
        if qty > input_balance then .error (.insufficientBalance input_balance qty)
        else .ok ()
    else
      let input_balance := get_token_balance env input_token
      if qty > input_balance then .error (.insufficientBalance input_balance qty)
      else if input_token = ETH_ADDRESS ∨ output_token = ETH_ADDRESS then
        .error .invalidTokenArgument
      else
        match calculate_max_output_token env input_token qty output_token with
        | .error e => .error e
        | .ok _ => .ok ()

/-- `BaseUniswap.make_trade_output` (`base.py` lines 285-316) composed with the
wrap functions (441-555) and the `UniswapV1` leaves.  For an ETH input the
price is checked against the ETH balance once with `cost` and then again
inside the wrap with `amount_in_max`. -/
def make_trade_output (env : Env) (input_token output_token : Token) (qty : ℤ) (fee : Option ℤ)
    (slippage : Option ℚ) (version : ℤ) : Except PyErr Unit :=
  match FeeTier.create fee version with
  | .error e => .error e
  | .ok _fee =>
    let slip := slippage.getD env.default_slippage
    if input_token = output_token then .error .invalidTokenArgument
    else if input_token = ETH_ADDRESS then
      let balance := env.eth_balance
      let need := env.eth_token_output_price output_token qty
      if balance < need then .error (.insufficientBalance balance need)
      else
        match wrap_eth_to_token_swap_output env output_token qty slip with
        | .error e => .error e
        | .ok _ => .ok ()
    else if output_token = ETH_ADDRESS then
      match wrap_token_to_eth_swap_output env input_token qty slip with
      | .error e => .error e
      | .ok _ => .ok ()
    else
      match wrap_token_to_token_swap_output env input_token output_token qty slip version with
      | .error e => .error e
      | .ok _ => .ok ()

/-- Claim C9's description of the two-hop exact-output computation, stated in
its own words: both legs computed as
`floor(amountOut * reserveIn * 1000 / ((reserveOut - amountOut) * 997)) + 1`
with truncating integer division (all quantities are positive at the uses
below, where truncation and flooring agree). -/
def specChainedExactOutputCost (amountOut rInBridge rOutBridge rInFinal rOutFinal : ℤ) : ℤ :=
  let bridge := amountOut * rInBridge * 1000 / ((rOutBridge - amountOut) * 997) + 1
  bridge * rInFinal * 1000 / ((rOutFinal - bridge) * 997) + 1

/-- Concrete fixture for the claim-C3 counterexample: balances and the quoted
cost are 1010 and 1000; the input token's exchange holds no tokens, so the
downstream V1 leaf computes a trivial `max_tokens` of 1. -/
def envC3cex : Env :=
  { default_slippage := 1/100
    eth_balance := 1010
    token_balances := fun _ => 1010
    ex_eth_balance := fun _ => 2000
    ex_token_balance := fun _ => 0
    eth_token_input_price := fun _ _ => 1000
    token_eth_input_price := fun _ _ => 1000
    eth_token_output_price := fun _ _ => 1000
    token_eth_output_price := fun _ _ => 1000 }

/-- Concrete fixture for the claim-C3 witness: balances 1009, quoted cost 1000. -/
def envC3w : Env :=
  { default_slippage := 1/100
    eth_balance := 1009
    token_balances := fun _ => 1009
    ex_eth_balance := fun _ => 2000
    ex_token_balance := fun _ => 0
    eth_token_input_price := fun _ _ => 1000
    token_eth_input_price := fun _ _ => 1000
    eth_token_output_price := fun _ _ => 1000
    token_eth_output_price := fun _ _ => 1000 }

/-- Concrete fixture for claim C4: the output token's exchange holds 2000 ETH
and 1000 tokens, the input token's exchange holds 1000 of each. -/
def envC4 : Env :=
  { default_slippage := 1/100
    eth_balance := 0
    token_balances := fun _ => 0
    ex_eth_balance := fun t => if t = "0xB" then 2000 else 1000
    ex_token_balance := fun _ => 1000
    eth_token_input_price := fun _ _ => 0
    token_eth_input_price := fun _ _ => 0
    eth_token_output_price := fun _ _ => 0
    token_eth_output_price := fun _ _ => 0 }

/-- Concrete fixture for claim C6: ample balances, arbitrary contract prices. -/
def envC6 : Env :=
  { default_slippage := 1/100
    eth_balance := 1000000
    token_balances := fun _ => 1000000
    ex_eth_balance := fun _ => 1000
    ex_token_balance := fun _ => 1000
    eth_token_input_price := fun _ _ => 42
    token_eth_input_price := fun _ _ => 42
    eth_token_output_price := fun _ _ => 42
    token_eth_output_price := fun _ _ => 42 }

/-- Concrete fixture for claim C9: every exchange holds 1000 ETH and 1000 tokens. -/
def envC9 : Env :=
  { default_slippage := 1/100
    eth_balance := 0
    token_balances := fun _ => 0
    ex_eth_balance := fun _ => 1000
    ex_token_balance := fun _ => 1000
    eth_token_input_price := fun _ _ => 0
    token_eth_input_price := fun _ _ => 0
    eth_token_output_price := fun _ _ => 0
    token_eth_output_price := fun _ _ => 0 }

lemma pyInt_le_ceil (q : ℚ) : pyInt q ≤ ⌈q⌉ := by
  unfold pyInt
  split
  · exact le_refl _
  · exact Int.floor_le_ceil q

/-- Claim C1: the spec says the exact-output single-leg input amount is
`floor(amountOut * reserveIn * 1000 / ((reserveOut - amountOut) * 997)) + 1`
in exact integer arithmetic.  The code (`v1.py` line 328) uses Python true
division, so at `amountOut = 1`, `reserveIn = 3`, `reserveOut = 3` it computes
the non-integer `3000/1994 + 1 = 2497/997 ≈ 2.5045`, while the claimed value
is `3000 // 1994 + 1 = 2`. -/
theorem C1_exact_output_uses_true_division :
    token_to_eth_swap_output_inputAmount 1 3 3 = .ok (2497/997)
  ∧ ((2497 : ℚ)/997) ≠ 2
  ∧ (2 : ℚ) < 2497/997 ∧ ((2497 : ℚ)/997) < 3
  ∧ (3000 : ℤ) / 1994 + 1 = 2 := by
  refine ⟨?_, by norm_num, by norm_num, by norm_num, by decide⟩
  norm_num [token_to_eth_swap_output_inputAmount, exactOutputLeg, pyDiv]

/-- Claim C2: the spec says the exact-input single-leg output is
`floor(amountIn * reserveOut * 997 / (reserveIn * 1000 + amountIn * 997))` and
at `reserveIn = 1000000`, `reserveOut = 2000000`, `amountIn = 1000` expects
`1992`.  The code (`v1.py` line 421) uses Python true division and computes
the non-integer `1994000000000/1000997000 ≈ 1992.014` instead. -/
theorem C2_exact_input_uses_true_division :
    exactInputLeg 1000 1000000 2000000 = .ok (1994000000000/1000997000)
  ∧ ((1994000000000 : ℚ)/1000997000) ≠ 1992
  ∧ (1992 : ℚ) < 1994000000000/1000997000
  ∧ ((1994000000000 : ℚ)/1000997000) < 1993
  ∧ (1994000000000 : ℤ) / 1000997000 = 1992 := by
  refine ⟨?_, by norm_num, by norm_num, by norm_num, by decide⟩
  norm_num [exactInputLeg, pyDiv]

/-- Claim C5 counterexample: at `reserveOut = 500`, `amountOut = 500` the
exact-output computation raises `ZeroDivisionError`, not any
`InsufficientLiquidity` (no such exception exists in the code), and at
`amountOut = 600 > reserveOut` it does not fail at all: it returns the
negative amount `-5999003/997`. -/
theorem C5_counterexample :
    token_to_eth_swap_output_inputAmount 500 1000 500 = .error .zeroDivisionError
  ∧ token_to_eth_swap_output_inputAmount 600 1000 500 = .ok (-(5999003/997))
  ∧ (-(5999003/997) : ℚ) < 0 := by
  refine ⟨?_, ?_, by norm_num⟩
  · norm_num [token_to_eth_swap_output_inputAmount, exactOutputLeg, pyDiv]
  · norm_num [token_to_eth_swap_output_inputAmount, exactOutputLeg, pyDiv]

/-- Claim C5 (amended): for `amountOut = reserveOut` the exact-output
computation fails with `ZeroDivisionError`; for `amountOut > reserveOut`
(with a positive token reserve) it succeeds and returns a negative input
amount computed from the negative denominator. -/
theorem C5_amended_overdraw_behaviour (qty inputReserve outputReserve : ℤ)
    (hres : 0 ≤ outputReserve) (hin : 1 ≤ inputReserve) :
    (qty = outputReserve →
      token_to_eth_swap_output_inputAmount qty inputReserve outputReserve =
        .error .zeroDivisionError)
  ∧ (outputReserve < qty →
      ∃ q : ℚ, token_to_eth_swap_output_inputAmount qty inputReserve outputReserve = .ok q
        ∧ q < 0) := by
  constructor
  · intro h
    subst h
    unfold token_to_eth_swap_output_inputAmount exactOutputLeg pyDiv
    simp
  · intro hlt
    have hQ : (0 : ℚ) < (qty : ℚ) := by
      have : (0 : ℤ) < qty := lt_of_le_of_lt hres hlt
      exact_mod_cast this
    have hI : (1 : ℚ) ≤ (inputReserve : ℚ) := by exact_mod_cast hin
    have hO : (0 : ℚ) ≤ (outputReserve : ℚ) := by exact_mod_cast hres
    have hOQ : (outputReserve : ℚ) < (qty : ℚ) := by exact_mod_cast hlt
    have hden : ((outputReserve : ℚ) - (qty : ℚ)) * 997 < 0 :=
      mul_neg_of_neg_of_pos (sub_neg.mpr hOQ) (by norm_num)
    refine ⟨(qty : ℚ) * (inputReserve : ℚ) * 1000 / (((outputReserve : ℚ) - (qty : ℚ)) * 997) + 1,
      ?_, ?_⟩
    · unfold token_to_eth_swap_output_inputAmount exactOutputLeg pyDiv
      rw [if_neg (ne_of_lt hden)]
    · have hlt1 : (qty : ℚ) * (inputReserve : ℚ) * 1000 /
          (((outputReserve : ℚ) - (qty : ℚ)) * 997) < -1 := by
        rw [div_lt_iff_of_neg hden]
        nlinarith [mul_nonneg hO (show (0:ℚ) ≤ 997 by norm_num),
          mul_pos hQ (show (0:ℚ) < 3 by norm_num),
          mul_nonneg (mul_nonneg (le_of_lt hQ) (sub_nonneg.mpr hI))
            (show (0:ℚ) ≤ 1000 by norm_num)]
      linarith

/-- Claim C5 amended witness at `(qty, inputReserve, outputReserve) =
(500, 1000, 500)` and `(600, 1000, 500)`. -/
theorem C5_amended_witness :
    token_to_eth_swap_output_inputAmount 500 1000 500 = .error .zeroDivisionError
  ∧ ∃ q : ℚ, token_to_eth_swap_output_inputAmount 600 1000 500 = .ok q ∧ q < 0 :=
  ⟨(C5_amended_overdraw_behaviour 500 1000 500 (by norm_num) (by norm_num)).1 rfl,
   (C5_amended_overdraw_behaviour 600 1000 500 (by norm_num) (by norm_num)).2 (by norm_num)⟩

/-- Claim C7: the single-tier versions 1 and 2 default an absent fee to 3000,
accept an explicit 3000, and reject 500 with `InvalidFeeTier`; version 3
rejects an absent fee with `ExplicitFeeTierRequired`. -/
theorem C7_feeTier_per_version_rules :
    FeeTier.create none 1 = .ok 3000
  ∧ FeeTier.create none 2 = .ok 3000
  ∧ FeeTier.create (some 3000) 1 = .ok 3000
  ∧ FeeTier.create (some 3000) 2 = .ok 3000
  ∧ FeeTier.create (some 500) 1 = .error .invalidFeeTier
  ∧ FeeTier.create (some 500) 2 = .error .invalidFeeTier
  ∧ FeeTier.create none 3 = .error .explicitFeeTierRequired := by
  decide

/-- Claim C10: `FeeTier.create` treats an explicit fee of 0 like an absent
value (`value = value or FeeTier.TIER_3000` is a truthiness test): for every
version it returns the default tier 3000; in particular for version 3 it does
not fail with `ExplicitFeeTierRequired`, and for no version does it fail with
`InvalidFeeTier`. -/
theorem C10_feeTier_zero_is_falsy (version : ℤ) :
    FeeTier.create (some 0) version = .ok 3000 := by
  simp [FeeTier.create, FeeTier.members]

/-- Claim C10 witness: an explicit fee of 0 on versions 1, 2 and 3. -/
theorem C10_feeTier_zero_witness :
    FeeTier.create (some 0) 1 = .ok 3000
  ∧ FeeTier.create (some 0) 2 = .ok 3000
  ∧ FeeTier.create (some 0) 3 = .ok 3000 :=
  ⟨C10_feeTier_zero_is_falsy 1, C10_feeTier_zero_is_falsy 2, C10_feeTier_zero_is_falsy 3⟩

/-- Claim C3 counterexample: with slippage 0.01 and quoted cost 1000 the
builder computes `amountInMax = int((1 + 0.01) * 1000) = 1010` (truncation,
not the claimed ceiling value 1011), and a balance of 1010 succeeds instead
of failing with `InsufficientBalance(1010, 1011)`. -/
theorem C3_counterexample :
    wrap_token_to_eth_swap_output envC3cex "0xToken" 1000 (1/100) = .ok 1
  ∧ pyInt ((1 + 1/100) * (1000 : ℚ)) = 1010
  ∧ (1010 : ℤ) ≠ 1011 := by
  have hne : ("0xToken" : Token) ≠ ETH_ADDRESS := by decide
  refine ⟨?_, by norm_num [pyInt], by decide⟩
  norm_num [wrap_token_to_eth_swap_output, get_token_balance, envC3cex,
    token_to_eth_swap_output, token_to_eth_swap_output_inputAmount,
    exactOutputLeg, pyDiv, pyInt, hne]

/-- Claim C3 (amended): for an exact-output trade the builder computes
`amountInMax = int((1 + slippage) * cost)` — truncation toward zero, not a
ceiling — validates the balance against `amountInMax` (not `cost`), and fails
with `InsufficientBalance(have, amountInMax)` exactly when
`amountInMax > balance`; with slippage 0.01 and cost 1000 this gives
`amountInMax = 1010`, so a balance of 1009 fails with
`InsufficientBalance(1009, 1010)` and a balance of 1010 proceeds. -/
theorem C3_amended_truncated_slippage_bound (env : Env) (tok : Token) (qty : ℤ)
    (slippage : ℚ) (h : tok ≠ ETH_ADDRESS) :
    (get_token_balance env tok <
        pyInt ((1 + slippage) * (env.token_eth_output_price tok qty : ℚ)) →
      wrap_token_to_eth_swap_output env tok qty slippage =
        .error (.insufficientBalance (get_token_balance env tok)
          (pyInt ((1 + slippage) * (env.token_eth_output_price tok qty : ℚ)))))
  ∧ (pyInt ((1 + slippage) * (env.token_eth_output_price tok qty : ℚ)) ≤
        get_token_balance env tok →
      wrap_token_to_eth_swap_output env tok qty slippage =
        token_to_eth_swap_output env tok qty slippage)
  ∧ (env.eth_balance <
        pyInt ((1 + slippage) * (env.eth_token_output_price tok qty : ℚ)) →
      wrap_eth_to_token_swap_output env tok qty slippage =
        .error (.insufficientBalance env.eth_balance
          (pyInt ((1 + slippage) * (env.eth_token_output_price tok qty : ℚ)))))
  ∧ (pyInt ((1 + slippage) * (env.eth_token_output_price tok qty : ℚ)) ≤
        env.eth_balance →
      wrap_eth_to_token_swap_output env tok qty slippage =
        .ok (env.eth_token_output_price tok qty))
  ∧ pyInt ((1 + 1/100) * (1000 : ℚ)) = 1010 := by
  refine ⟨?_, ?_, ?_, ?_, by norm_num [pyInt]⟩
  · intro hc
    simp only [wrap_token_to_eth_swap_output, gt_iff_lt]
    rw [if_neg h, if_pos hc]
  · intro hc
    simp only [wrap_token_to_eth_swap_output, gt_iff_lt]
    rw [if_neg h, if_neg (not_lt.mpr hc)]
  · intro hc
    simp only [wrap_eth_to_token_swap_output, gt_iff_lt]
    rw [if_neg h, if_pos hc]
  · intro hc
    simp only [wrap_eth_to_token_swap_output, gt_iff_lt]
    rw [if_neg h, if_neg (not_lt.mpr hc)]

/-- Claim C3 amended witness: balance 1009, cost 1000, slippage 1/100. -/
theorem C3_amended_witness :
    wrap_token_to_eth_swap_output envC3w "0xToken" 1000 (1/100) =
      .error (.insufficientBalance 1009 1010) := by
  have h := (C3_amended_truncated_slippage_bound envC3w "0xToken" 1000 (1/100)
      (by decide)).1
    (by norm_num [envC3w, get_token_balance, pyInt, ETH_ADDRESS])
  rw [h]
  norm_num [envC3w, get_token_balance, pyInt, ETH_ADDRESS]

/-- Claim C4 counterexample: at the fixture `envC4` (output pool 2000 ETH /
1000 tokens, input pool 1000/1000, `qty = 1`) the claimed bridge cost by the
single-leg exact-output formula is `2000000 // 996003 + 1 = 3`, so the claim
predicts a reported bridging cost of `ceil(1.2 * 3) = 4`; the code reports
`int(1.2 * (2000000/996003 + 1)) = 3`. -/
theorem C4_counterexample :
    calculate_max_input_token envC4 "0xA" 1 "0xB" = .ok (2, 3)
  ∧ (1 : ℤ) * 2000 * 1000 / ((1000 - 1) * 997) + 1 = 3
  ∧ ⌈(6/5 : ℚ) * 3⌉ = 4
  ∧ (3 : ℤ) ≠ 4 := by
  have hne : ("0xA" : Token) ≠ "0xB" := by decide
  refine ⟨?_, by decide, by norm_num [Int.ceil_eq_iff], by decide⟩
  norm_num [calculate_max_input_token, exactOutputLeg, pyDiv, pyInt, envC4, hne]

/-- Claim C4 (amended): the reported cost for the bridging leg is
`int(1.2 * b)` — the truncation toward zero of 1.2 times the unfloored
true-division bridge amount `b` — which is at most (and in general below) the
claimed ceiling. -/
theorem C4_amended_bridging_margin_truncates (env : Env) (input_token output_token : Token)
    (qty : ℤ) (b : ℚ)
    (hb : exactOutputLeg (qty : ℚ) (env.ex_eth_balance output_token : ℚ)
        (env.ex_token_balance output_token : ℚ) = .ok b)
    (hden : ((env.ex_eth_balance input_token : ℚ) - b) * 997 ≠ 0) :
    (∃ p : ℤ × ℤ, calculate_max_input_token env input_token qty output_token = .ok p
      ∧ p.2 = pyInt ((6/5 : ℚ) * b))
  ∧ pyInt ((6/5 : ℚ) * b) ≤ ⌈(6/5 : ℚ) * b⌉ := by
  have hmain : calculate_max_input_token env input_token qty output_token =
      .ok (pyInt (b * (env.ex_token_balance input_token : ℚ) * 1000 /
            (((env.ex_eth_balance input_token : ℚ) - b) * 997) - 1),
          pyInt ((6/5 : ℚ) * b)) := by
    unfold calculate_max_input_token
    split
    · rename_i e heq
      rw [hb] at heq
      exact Except.noConfusion heq
    · rename_i input_amount_b heq
      rw [hb] at heq
      have hba : input_amount_b = b := (Except.ok.inj heq).symm
      subst hba
      split
      · rename_i e heq2
        unfold pyDiv at heq2
        rw [if_neg hden] at heq2
        exact Except.noConfusion heq2
      · rename_i q_a heq2
        unfold pyDiv at heq2
        rw [if_neg hden] at heq2
        have hqa := Except.ok.inj heq2
        subst hqa
        rfl
  exact ⟨⟨_, hmain, rfl⟩, pyInt_le_ceil _⟩

/-- Claim C4 amended witness at the fixture `envC4`, where the bridge amount
is `2000000/996003 + 1 = 2996003/996003`. -/
theorem C4_amended_witness :
    (∃ p : ℤ × ℤ, calculate_max_input_token envC4 "0xA" 1 "0xB" = .ok p
      ∧ p.2 = pyInt ((6/5 : ℚ) * (2996003/996003)))
  ∧ pyInt ((6/5 : ℚ) * (2996003/996003)) ≤ ⌈(6/5 : ℚ) * (2996003/996003)⌉ :=
  C4_amended_bridging_margin_truncates envC4 "0xA" "0xB" 1 (2996003/996003)
    (by norm_num [exactOutputLeg, pyDiv, envC4])
    (by norm_num [envC4, (show ("0xA" : Token) ≠ "0xB" from by decide)])

/-- Claim C6 counterexample: `make_trade` resolves the fee tier before the
same-token check, so with `fee = 500` on the V1 client and equal tokens it
fails with `InvalidFeeTier`, not `InvalidTokenArgument`; and
`get_price_input` has no same-token check at all — with equal non-ETH tokens
it fails with `UnsupportedUniSwapVersion`. -/
theorem C6_counterexample :
    make_trade envC6 "0xA" "0xA" 1 (some 500) none 1 = .error .invalidFeeTier
  ∧ PyErr.invalidFeeTier ≠ .invalidTokenArgument
  ∧ get_price_input envC6 "0xA" "0xA" 1 none 1 = .error (.unsupportedUniSwapVersion 1)
  ∧ PyErr.unsupportedUniSwapVersion 1 ≠ .invalidTokenArgument := by
  refine ⟨?_, by decide, ?_, by decide⟩
  · simp [make_trade, FeeTier.create, FeeTier.members]
  · simp [get_price_input, FeeTier.create, FeeTier.members, ETH_ADDRESS]

/-- Claim C6 (amended): `make_trade` and `make_trade_output` fail with
`InvalidTokenArgument` on equal tokens provided the fee-tier argument resolves
successfully (fee-tier errors take precedence, so the failure is not
independent of the fee argument); `get_price_input` and `get_price_output`
perform no same-token check — on the V1 client with equal non-ETH tokens they
fail with `UnsupportedUniSwapVersion` instead. -/
theorem C6_amended_token_check_order (env : Env) (t0 t1 : Token) (qty : ℤ)
    (fee : Option ℤ) (slip : Option ℚ) (version f : ℤ)
    (hfee : FeeTier.create fee version = .ok f) :
    (t0 = t1 → make_trade env t0 t1 qty fee slip version = .error .invalidTokenArgument)
  ∧ (t0 = t1 → make_trade_output env t0 t1 qty fee slip version = .error .invalidTokenArgument)
  ∧ (t0 = t1 → t0 ≠ ETH_ADDRESS →
      get_price_input env t0 t1 qty fee version = .error (.unsupportedUniSwapVersion version)
    ∧ get_price_output env t0 t1 qty fee version = .error (.unsupportedUniSwapVersion version)) := by
  refine ⟨?_, ?_, ?_⟩
  · intro ht
    simp [make_trade, hfee, ht]
  · intro ht
    simp [make_trade_output, hfee, ht]
  · intro ht hne
    subst ht
    constructor
    · simp [get_price_input, hfee, hne]
    · simp [get_price_output, hfee, hne]

/-- Claim C6 amended witness: valid default fee on the V1 client, equal
tokens. -/
theorem C6_amended_witness :
    make_trade envC6 "0xA" "0xA" 1 none none 1 = .error .invalidTokenArgument :=
  (C6_amended_token_check_order envC6 "0xA" "0xA" 1 none none 1 3000 (by decide)).1 rfl

/-- Claim C8 counterexample: at reserves `(997, 10)` and `a = 1000` the
exact-input leg returns exactly 5 and the exact-output leg applied to it
returns 1001, which is more than `a`. -/
theorem C8_counterexample :
    exactInputLeg 1000 997 10 = .ok 5
  ∧ exactOutputLeg 5 997 10 = .ok 1001
  ∧ ¬ ((1001 : ℚ) ≤ 1000) := by
  refine ⟨?_, ?_, by norm_num⟩
  · norm_num [exactInputLeg, pyDiv]
  · norm_num [exactOutputLeg, pyDiv]

/-- Claim C8 (amended): under the code's true-division arithmetic, for every
positive amount and positive reserves the round trip is defined and returns
exactly `a + 1` — always one more than `a`, never at most `a`. -/
theorem C8_amended_roundtrip_adds_one (a rIn rOut : ℚ)
    (ha : 0 < a) (hin : 0 < rIn) (hout : 0 < rOut) :
    ∃ out : ℚ, exactInputLeg a rIn rOut = .ok out
      ∧ exactOutputLeg out rIn rOut = .ok (a + 1) := by
  have hd1 : (0 : ℚ) < rIn * 1000 + a * 997 := by positivity
  refine ⟨a * rOut * 997 / (rIn * 1000 + a * 997), ?_, ?_⟩
  · unfold exactInputLeg pyDiv
    rw [if_neg (ne_of_gt hd1)]
  · have hsub : rOut - a * rOut * 997 / (rIn * 1000 + a * 997) =
        rOut * rIn * 1000 / (rIn * 1000 + a * 997) := by
      field_simp
      ring
    have hd2 : (rOut - a * rOut * 997 / (rIn * 1000 + a * 997)) * 997 ≠ 0 := by
      rw [hsub]
      have : (0 : ℚ) < rOut * rIn * 1000 / (rIn * 1000 + a * 997) := by positivity
      positivity
    unfold exactOutputLeg pyDiv
    rw [if_neg hd2]
    have hval : a * rOut * 997 / (rIn * 1000 + a * 997) * rIn * 1000 /
        ((rOut - a * rOut * 997 / (rIn * 1000 + a * 997)) * 997) = a := by
      rw [hsub]
      rw [div_eq_iff (by positivity : rOut * rIn * 1000 / (rIn * 1000 + a * 997) * 997 ≠ 0)]
      field_simp
      ring
    rw [hval]

/-- Claim C8 amended witness at `a = 1000`, reserves `(997, 10)`. -/
theorem C8_amended_witness :
    ∃ out : ℚ, exactInputLeg 1000 997 10 = .ok out
      ∧ exactOutputLeg out 997 10 = .ok (1000 + 1) :=
  C8_amended_roundtrip_adds_one 1000 997 10 (by norm_num) (by norm_num) (by norm_num)

/-- Claim C9 counterexample: at the all-1000 fixture `envC9` with `qty = 1`,
chaining the claim's floor-based single-leg exact-output formula gives a total
input of 3, but the code returns 1 (its second leg subtracts 1 instead of
adding 1, and no intermediate value is floored). -/
theorem C9_counterexample :
    calculate_max_input_token envC9 "0xA" 1 "0xB" = .ok (1, 2)
  ∧ specChainedExactOutputCost 1 1000 1000 1000 1000 = 3
  ∧ (1 : ℤ) ≠ 3 := by
  refine ⟨?_, by decide, by decide⟩
  norm_num [calculate_max_input_token, exactOutputLeg, pyDiv, pyInt, envC9]

/-- Claim C9 (amended): the two-hop exact-output cost chains the bridge leg
`b = qty * rInB * 1000 / ((rOutB - qty) * 997) + 1` (true division, plus one,
not floored) with a second leg computed as
`b * rInA * 1000 / ((rOutA - b) * 997) - 1` — true division and minus one,
not the single-leg plus-one formula — and truncates both results toward zero. -/
theorem C9_amended_chain_with_minus_one (env : Env) (input_token output_token : Token)
    (qty : ℤ) (b : ℚ)
    (hb : exactOutputLeg (qty : ℚ) (env.ex_eth_balance output_token : ℚ)
        (env.ex_token_balance output_token : ℚ) = .ok b)
    (hden : ((env.ex_eth_balance input_token : ℚ) - b) * 997 ≠ 0) :
    calculate_max_input_token env input_token qty output_token =
      .ok (pyInt (b * (env.ex_token_balance input_token : ℚ) * 1000 /
            (((env.ex_eth_balance input_token : ℚ) - b) * 997) - 1),
          pyInt ((6/5 : ℚ) * b)) := by
  unfold calculate_max_input_token
  split
  · rename_i e heq
    rw [hb] at heq
    exact Except.noConfusion heq
  · rename_i input_amount_b heq
    rw [hb] at heq
    have hba : input_amount_b = b := (Except.ok.inj heq).symm
    subst hba
    split
    · rename_i e heq2
      unfold pyDiv at heq2
      rw [if_neg hden] at heq2
      exact Except.noConfusion heq2
    · rename_i q_a heq2
      unfold pyDiv at heq2
      rw [if_neg hden] at heq2
      have hqa := Except.ok.inj heq2
      subst hqa
      rfl

/-- Claim C9 amended witness at the fixture `envC9`, where the bridge amount
is `1000000/996003 + 1 = 1996003/996003`. -/
theorem C9_amended_witness :
    calculate_max_input_token envC9 "0xA" 1 "0xB" =
      .ok (pyInt ((1996003/996003 : ℚ) * (envC9.ex_token_balance "0xA" : ℚ) * 1000 /
            (((envC9.ex_eth_balance "0xA" : ℚ) - 1996003/996003) * 997) - 1),
          pyInt ((6/5 : ℚ) * (1996003/996003))) :=
  C9_amended_chain_with_minus_one envC9 "0xA" "0xB" 1 (1996003/996003)
    (by norm_num [exactOutputLeg, pyDiv, envC9])
    (by norm_num [envC9])

end UniswapClient
